import Mathlib

/-!
Verification of the GVariant format-string checker
(`clang-plugin/gvariant-checker.cpp`) against its design specification.

The development shallowly embeds the checker: Clang `QualType`s become the
inductive `Ty` (with a `konst` node for a const qualifier and a `typedefT` node
for typedef sugar, since the checker distinguishes sugared types from their
canonical forms), call-site argument expressions become `Arg`, the
`VariantCheckFlags` bitmask becomes the `Flags` structure, and the mutually
recursive parsers become a single fuel-indexed function `parseF` dispatching
on a `PMode` tag (one tag per C function).  Every definition is a direct
transcription of the corresponding C function.
-/

namespace GVariantChecker

/-- Builtin type kinds, mirroring the Clang `BuiltinType` kinds the checker
touches.  `charB` models plain `char` with the (Linux) signed
representation. -/
inductive BK where
  | voidB | boolB
  | charB | scharB | ucharB
  | shortB | ushortB
  | intB | uintB
  | longB | ulongB
  | longlongB | ulonglongB
  | floatB | doubleB | longdoubleB
deriving DecidableEq

/-- A semantic type.  `konst t` is the const-qualified form of `t` (the
checker only ever manipulates the const qualifier); `typedefT n u` is a typedef
named `n` with underlying type `u` (sugar: canonically equal to `u` but a
distinct AST node, which matters for `dyn_cast` and the typedef special case
in the architecture-dependence test); `ptr p` is a pointer to `p`; `record n`
a named aggregate such as `GVariant`. -/
inductive Ty where
  | builtin (k : BK)
  | typedefT (n : String) (under : Ty)
  | ptr (pointee : Ty)
  | record (n : String)
  | konst (t : Ty)
deriving DecidableEq

namespace Ty

/-- Canonical type: resolve typedef sugar, keep qualifiers (this is what
Clang `ASTContext::hasSameType` compares). -/
def canonTy : Ty → Ty
  | builtin k => builtin k
  | record n => record n
  | ptr p => ptr (canonTy p)
  | typedefT _ u => canonTy u
  | konst t =>
    match canonTy t with
    | konst u => konst u
    | u => konst u

/-- `ASTContext::hasSameType`: equality of canonical types, qualifiers
included. -/
def hasSameType (a b : Ty) : Bool := canonTy a == canonTy b

/-- `QualType::getUnqualifiedType`: drop top-level qualifiers, keep sugar. -/
def getUnqualifiedType : Ty → Ty
  | konst t => getUnqualifiedType t
  | t => t

/-- `dyn_cast<PointerType>` on a `QualType`: ignores top-level local
qualifiers but does not desugar typedefs. -/
def dynCastPtr : Ty → Option Ty
  | ptr p => some p
  | konst (ptr p) => some p
  | _ => none

/-- `dyn_cast<TypedefType>` on a `QualType`: the typedef name, if the node
is (possibly qualified) typedef sugar. -/
def dynCastTypedefName : Ty → Option String
  | typedefT n _ => some n
  | konst (typedefT n _) => some n
  | _ => none

/-- `dyn_cast<BuiltinType>` on a `QualType`: the builtin kind, without
desugaring typedefs. -/
def dynCastBuiltin : Ty → Option BK
  | builtin k => some k
  | konst (builtin k) => some k
  | _ => none

/-- The canonical, unqualified core of a type, used by the `Type::is…Type`
predicate family (which all inspect the canonical type). -/
def canonCore (t : Ty) : Ty := getUnqualifiedType (canonTy t)

/-- `Type::isPointerType`. -/
def isPointerTypeB (t : Ty) : Bool :=
  match canonCore t with
  | ptr _ => true
  | _ => false

/-- `Type::isUnsignedIntegerType` (includes `bool`). -/
def isUnsignedIntegerTypeB (t : Ty) : Bool :=
  match canonCore t with
  | builtin .boolB | builtin .ucharB | builtin .ushortB | builtin .uintB
  | builtin .ulongB | builtin .ulonglongB => true
  | _ => false

/-- `Type::isSignedIntegerType` (plain `char` is signed on the modelled
target). -/
def isSignedIntegerTypeB (t : Ty) : Bool :=
  match canonCore t with
  | builtin .charB | builtin .scharB | builtin .shortB | builtin .intB
  | builtin .longB | builtin .longlongB => true
  | _ => false

/-- `Expr`-side `hasSignedIntegerRepresentation` for the types we model. -/
def hasSignedIntegerRep (t : Ty) : Bool := isSignedIntegerTypeB t

/-- `ASTContext::getCorrespondingUnsignedType`. -/
def getCorrespondingUnsignedType (t : Ty) : Ty :=
  match canonCore t with
  | builtin .charB | builtin .scharB => builtin .ucharB
  | builtin .shortB => builtin .ushortB
  | builtin .intB => builtin .uintB
  | builtin .longB => builtin .ulongB
  | builtin .longlongB => builtin .ulonglongB
  | u => u

/-- `ASTContext::getPromotedIntegerType`: every integer type narrower than
`int` promotes to the signed 32-bit `int` (ISO C default argument
promotion; `int` represents all values of the narrower types). -/
def getPromotedIntegerType (t : Ty) : Ty :=
  match canonCore t with
  | builtin .boolB | builtin .charB | builtin .scharB | builtin .ucharB
  | builtin .shortB | builtin .ushortB => builtin .intB
  | u => u

/-- `Type::isCharType` (char of any signedness). -/
def isCharTypeB (t : Ty) : Bool :=
  match canonCore t with
  | builtin .charB | builtin .scharB | builtin .ucharB => true
  | _ => false

/-- `QualType::isConstQualified` (local qualifier only). -/
def isConstQualified : Ty → Bool
  | konst _ => true
  | _ => false

/-- `ASTContext::getConstType`. -/
def mkConst : Ty → Ty
  | konst t => konst t
  | t => konst t

/-- `Type::getAs<PointerType>` followed by `getPointeeType`: desugars and
ignores qualifiers on the way to the pointer node, keeps the pointee's own
sugar. -/
def getAsPointerPointee : Ty → Option Ty
  | ptr p => some p
  | konst t => getAsPointerPointee t
  | typedefT _ u => getAsPointerPointee u
  | _ => none

/-- Bit width of a type (`ASTContext::getTypeSize`) on the modelled LP64
target, for the kinds reverse inference examines. -/
def typeSizeBits (t : Ty) : Nat :=
  match canonCore t with
  | builtin .boolB => 8
  | builtin .charB | builtin .scharB | builtin .ucharB => 8
  | builtin .shortB | builtin .ushortB => 16
  | builtin .intB | builtin .uintB => 32
  | builtin .longB | builtin .ulongB => 64
  | builtin .longlongB | builtin .ulonglongB => 64
  | builtin .floatB => 32
  | builtin .doubleB => 64
  | builtin .longdoubleB => 128
  | ptr _ => 64
  | _ => 0

end Ty

open Ty

/-- GLib named types as resolved by the external `TypeManager` on an LP64
GLib platform: the fixed-width aliases are typedef sugar over the builtins
of that width. -/
def gint16 : Ty := .typedefT "gint16" (.builtin .shortB)

def guint16 : Ty := .typedefT "guint16" (.builtin .ushortB)

def gint32 : Ty := .typedefT "gint32" (.builtin .intB)

def guint32 : Ty := .typedefT "guint32" (.builtin .uintB)

def gint64 : Ty := .typedefT "gint64" (.builtin .longB)

def guint64 : Ty := .typedefT "guint64" (.builtin .ulongB)

def gboolean : Ty := .typedefT "gboolean" (.builtin .intB)

/-- `TypeManager::find_pointer_type_by_name` results used by the checker. -/
def gvariantPtr : Ty := .ptr (.record "GVariant")

def gvariantIterPtr : Ty := .ptr (.record "GVariantIter")

def gvariantBuilderPtr : Ty := .ptr (.record "GVariantBuilder")

def vaListPtr : Ty := .ptr (.record "va_list")

def gbooleanPtr : Ty := .ptr gboolean

/-- `_compare_types` for outbound arguments (`CHECK_FLAG_DIRECTION_OUT`
set): the flags never change down the recursion, so the two directions are
split into two structurally recursive functions.  Qualifiers are preserved
at every pointer depth. -/
def compareTypesOut : Ty → Ty → Bool
  | .ptr ap, e =>
    hasSameType (.ptr ap) e ||
      (match dynCastPtr e with
       | some ep => compareTypesOut ap ep
       | none => false)
  | .konst (.ptr ap), e =>
    hasSameType (.konst (.ptr ap)) e ||
      (match dynCastPtr e with
       | some ep => compareTypesOut ap ep
       | none => false)
  | a, e => hasSameType a e

/-- `_compare_types` for inbound arguments: the actual pointee's qualifiers
are stripped before recursing. -/
def compareTypesIn : Ty → Ty → Bool
  | .ptr (.konst ap), e =>
    hasSameType (.ptr (.konst ap)) e ||
      (match dynCastPtr e with
       | some ep => compareTypesIn ap ep
       | none => false)
  | .ptr ap, e =>
    hasSameType (.ptr ap) e ||
      (match dynCastPtr e with
       | some ep => compareTypesIn ap ep
       | none => false)
  | .konst (.ptr (.konst ap)), e =>
    hasSameType (.konst (.ptr (.konst ap))) e ||
      (match dynCastPtr e with
       | some ep => compareTypesIn ap ep
       | none => false)
  | .konst (.ptr ap), e =>
    hasSameType (.konst (.ptr ap)) e ||
      (match dynCastPtr e with
       | some ep => compareTypesIn ap ep
       | none => false)
  | a, e => hasSameType a e

/-- `_compare_types(actual, expected, flags)`: fast-path canonical equality,
then pointer peeling, with the actual pointee unqualified for inbound
comparisons. -/
def compareTypes (directionOut : Bool) (actual expected : Ty) : Bool :=
  if directionOut then compareTypesOut actual expected
  else compareTypesIn actual expected

/-- `_type_is_arch_dependent`: strip pointers; a typedef is
architecture-dependent only when named `glong`/`gulong`; otherwise flag
`long`, `unsigned long` and `long double`. -/
def typeIsArchDependent : Ty → Bool
  | .ptr p => typeIsArchDependent p
  | .konst (.ptr p) => typeIsArchDependent p
  | .typedefT n _ => n == "glong" || n == "gulong"
  | .konst (.typedefT n _) => n == "glong" || n == "gulong"
  | t =>
    hasSameType t (.builtin .longB) || hasSameType t (.builtin .ulongB) ||
      hasSameType t (.builtin .longdoubleB)

/-- The `VariantCheckFlags` bitmask. -/
structure Flags where
  forceGVariant : Bool
  forceVaList : Bool
  requireConst : Bool
  directionOut : Bool
  allowMaybe : Bool
  consumeArgs : Bool
deriving DecidableEq

def flagsNone : Flags := ⟨false, false, false, false, false, false⟩

/-- The flag set of an inbound varargs check (`CHECK_FLAG_CONSUME_ARGS`
alone). -/
def consumeOnly : Flags := ⟨false, false, false, false, false, true⟩

/-- `flags | CHECK_FLAG_ALLOW_MAYBE`. -/
def maybeFlags (f : Flags) : Flags := { f with allowMaybe := true }

/-- `flags | CHECK_FLAG_FORCE_GVARIANT`. -/
def forceGVariantFlags (f : Flags) : Flags := { f with forceGVariant := true }

/-- `flags | CHECK_FLAG_REQUIRE_CONST`. -/
def requireConstFlags (f : Flags) : Flags := { f with requireConst := true }

/-- `flags & ~CHECK_FLAG_CONSUME_ARGS`. -/
def noConsumeFlags (f : Flags) : Flags := { f with consumeArgs := false }

/-- The flag set an array production passes when parsing its element type:
`(flags | CHECK_FLAG_ALLOW_MAYBE) & ~CHECK_FLAG_CONSUME_ARGS`. -/
def arrayElementFlags (f : Flags) : Flags := noConsumeFlags (maybeFlags f)

/-- Pointwise flag containment: every facet set in `a` is set in `b`. -/
def flagSubset (a b : Flags) : Bool :=
  (!a.forceGVariant || b.forceGVariant) && (!a.forceVaList || b.forceVaList) &&
  (!a.requireConst || b.requireConst) && (!a.directionOut || b.directionOut) &&
  (!a.allowMaybe || b.allowMaybe) && (!a.consumeArgs || b.consumeArgs)

/-- Flag containment on every facet except `consumeArgs`. -/
def flagSubsetExceptConsume (a b : Flags) : Bool :=
  (!a.forceGVariant || b.forceGVariant) && (!a.forceVaList || b.forceVaList) &&
  (!a.requireConst || b.requireConst) && (!a.directionOut || b.directionOut) &&
  (!a.allowMaybe || b.allowMaybe)

/-- The flag transformations applied at the parsers' recursive call sites
(identity for tuple members, dict members and grammar fallthrough; the
others for `m`, `@`, `&` and the array element position). -/
def recursionFlagMaps : List (Flags → Flags) :=
  [id, maybeFlags, forceGVariantFlags, requireConstFlags, arrayElementFlags]

/-- A call-site argument expression: its static type, whether it is a
compile-time null-pointer constant, and its value when it is an integer
constant expression. -/
structure Arg where
  type : Ty
  isNullConstant : Bool
  intConst : Option Int
deriving DecidableEq

/-- An argument that is neither a null-pointer constant nor an integer
constant expression. -/
def plainArg (t : Ty) : Arg := ⟨t, false, none⟩

/-- The argument expression `NULL` (`(void *) 0`). -/
def nullArg : Arg := ⟨.ptr (.builtin .voidB), true, none⟩

/-- The diagnostics the parser and consumer can emit (fail-fast: at most one
per parse).  `fuelExhausted` is the recursion-depth guard of the fuel-indexed
embedding; the canonical fuel supplied by the wrappers below always
suffices, so it never escapes. -/
inductive DiagKind where
  | missingArgument
  | nullNotAllowed
  | archDependentMismatch
  | typeMismatch
  | invalidBasicTypeChar
  | unterminatedTuple
  | dictNotTwoElements
  | dictUnterminated
  | dictTooManyElements
  | invalidConvenience
  | fuelExhausted
deriving DecidableEq

/-- Flag-driven overrides applied to the expected type at the top of
`_consume_variadic_argument`: force-GVariant / force-va_list replacement,
const insertion one pointer level down for const-required out arguments, and
the extra pointer indirection for out arguments. -/
def adjustExpectedType (e : Ty) (flags : Flags) : Ty :=
  let e1 :=
    if flags.forceGVariant then gvariantPtr
    else if flags.forceVaList then vaListPtr
    else e
  let e2 :=
    if flags.directionOut && flags.requireConst && isPointerTypeB e1 then
      match dynCastPtr e1 with
      | some p => Ty.ptr (mkConst p)
      | none => e1
    else e1
  if flags.directionOut && !flags.forceVaList then Ty.ptr e2 else e2

/-- The silent int-to-uint promotion of a non-negative signed integer
constant passed where an unsigned type is expected. -/
def adjustActualType (arg : Arg) (e : Ty) : Ty :=
  match arg.intConst with
  | some v =>
    if 0 ≤ v ∧ isUnsignedIntegerTypeB e = true ∧ hasSignedIntegerRep arg.type = true
    then getCorrespondingUnsignedType arg.type
    else arg.type
  | none => arg.type

/-- `_consume_variadic_argument`: returns the diagnostic (if any) and the
argument cursor, which the C code advances only on the success path. -/
def consumeVariadicArgument (expected : Ty) (args : List Arg) (flags : Flags) :
    Option DiagKind × List Arg :=
  if !flags.consumeArgs then (none, args)
  else
    let e := adjustExpectedType expected flags
    match args with
    | [] => (some .missingArgument, [])
    | arg :: rest =>
      let a := adjustActualType arg e
      if arg.isNullConstant && !flags.allowMaybe && isPointerTypeB e then
        (some .nullNotAllowed, arg :: rest)
      else if !arg.isNullConstant then
        let typeError := !compareTypes flags.directionOut a e
        let archError := typeIsArchDependent a
        if archError then (some .archDependentMismatch, arg :: rest)
        else if typeError then (some .typeMismatch, arg :: rest)
        else (none, rest)
      else (none, rest)

/-- The result of one parser step: optional diagnostic, remaining format
string, remaining argument cursor (the C code updates the two cursors
through pointers; on failure they hold whatever was consumed before the
error). -/
abbrev PRes := Option DiagKind × List Char × List Arg

/-- The basic-type-string table of `_check_basic_type_string`: the expected
type for each basic grammar character. -/
def basicTypeForChar (c : Char) : Option Ty :=
  if c == 'b' then some (.builtin .intB)
  else if c == 'y' then some (.builtin .ucharB)
  else if c == 'n' then some gint16
  else if c == 'q' then some guint16
  else if c == 'i' || c == 'h' then some gint32
  else if c == 'u' then some guint32
  else if c == 'x' then some gint64
  else if c == 't' then some guint64
  else if c == 'd' then some (.builtin .doubleB)
  else if c == 's' || c == 'o' || c == 'g' then some (.ptr (.builtin .charB))
  else if c == '?' then some gvariantPtr
  else none

/-- `_check_basic_type_string`: resolve the leading character, promote the
8/16-bit integer characters to `int` for inbound arguments, consume one
variadic argument. -/
def checkBasicTypeString (ts : List Char) (args : List Arg) (flags : Flags) : PRes :=
  match ts with
  | [] => (some .invalidBasicTypeChar, ts, args)
  | c :: rest =>
    match basicTypeForChar c with
    | none => (some .invalidBasicTypeChar, ts, args)
    | some t =>
      let e :=
        if !flags.directionOut && (c == 'y' || c == 'n' || c == 'q')
        then getPromotedIntegerType t
        else t
      let (r, args') := consumeVariadicArgument e args flags
      (r, rest, args')

/-- `_check_basic_format_string`: `@` and `&` delegate to the basic type
string with `FORCE_GVARIANT` resp. `REQUIRE_CONST` added, `?` consumes a
`GVariant*`, `^` dispatches on the hard-coded convenience table, everything
else is a basic type string. -/
def checkBasicFormatString (ts : List Char) (args : List Arg) (flags : Flags) : PRes :=
  match ts with
  | '@' :: rest => checkBasicTypeString rest args (forceGVariantFlags flags)
  | '?' :: rest =>
    let (r, args') := consumeVariadicArgument gvariantPtr args flags
    (r, rest, args')
  | '&' :: rest => checkBasicTypeString rest args (requireConstFlags flags)
  | '^' :: rest =>
    let charArray := Ty.ptr (.builtin .charB)
    let constCharArray := Ty.ptr (.konst (.builtin .charB))
    let hit : Option (Ty × Nat) :=
      if ['a', 's'].isPrefixOf rest || ['a', 'o'].isPrefixOf rest then
        some (.ptr charArray, 2)
      else if ['a', '&', 's'].isPrefixOf rest || ['a', '&', 'o'].isPrefixOf rest then
        some (.ptr constCharArray, 3)
      else if ['a', 'a', 'y'].isPrefixOf rest then some (.ptr charArray, 3)
      else if ['a', 'y'].isPrefixOf rest then some (charArray, 2)
      else if ['&', 'a', 'y'].isPrefixOf rest then some (constCharArray, 3)
      else if ['a', '&', 'a', 'y'].isPrefixOf rest then some (.ptr constCharArray, 4)
      else none
    match hit with
    | none => (some .invalidConvenience, rest, args)
    | some (e, skip) =>
      let (r, args') := consumeVariadicArgument e args flags
      (r, rest.drop skip, args')
  | _ => checkBasicTypeString ts args flags

/-- Dispatch tag for the fuel-indexed parser `parseF`: the type-string
grammar, its tuple loop, the format-string grammar, and its tuple loop (one
tag per mutually recursive C function). -/
inductive PMode where
  | typeStr | typeLoop | fmtStr | fmtLoop
deriving DecidableEq

/-- The mutually recursive parsers `_check_type_string` and
`_check_format_string` (plus their tuple `while` loops), merged into one
function structurally recursive on a fuel bound so that evaluation reduces
definitionally.  Each recursive call decrements the fuel by one; the
canonical fuel `2 * length + 1` used by the wrappers below dominates the
recursion depth. -/
def parseF : Nat → PMode → List Char → List Arg → Flags → PRes
  | 0, _, ts, args, _ => (some .fuelExhausted, ts, args)
  | f + 1, .typeStr, ts, args, flags =>
    match ts with
    | 'v' :: rest =>
      let (r, args') := consumeVariadicArgument gvariantPtr args flags
      (r, rest, args')
    | 'a' :: rest =>
      let flags1 := maybeFlags flags
      let e := if flags1.directionOut then gvariantIterPtr else gvariantBuilderPtr
      (match parseF f .typeStr rest args (noConsumeFlags flags1) with
       | (some d, ts', args') => (some d, ts', args')
       | (none, ts', args') =>
         let (r, args2) := consumeVariadicArgument e args' flags1
         (r, ts', args2))
    | 'm' :: rest => parseF f .typeStr rest args (maybeFlags flags)
    | '(' :: rest =>
      (match parseF f .typeLoop rest args flags with
       | (some d, ts', args') => (some d, ts', args')
       | (none, ts', args') =>
         match ts' with
         | ')' :: rest2 => (none, rest2, args')
         | _ => (some .unterminatedTuple, ts', args'))
    | 'r' :: rest =>
      let (r, args') := consumeVariadicArgument gvariantPtr args flags
      (r, rest, args')
    | '{' :: rest =>
      (match rest with
       | '}' :: _ => (some .dictNotTwoElements, rest, args)
       | _ =>
         match checkBasicTypeString rest args flags with
         | (some d, ts', args') => (some d, ts', args')
         | (none, ts', args') =>
           match ts' with
           | '}' :: _ => (some .dictNotTwoElements, ts', args')
           | _ =>
             match parseF f .typeStr ts' args' flags with
             | (some d, ts2, args2) => (some d, ts2, args2)
             | (none, ts2, args2) =>
               match ts2 with
               | [] => (some .dictUnterminated, ts2, args2)
               | '}' :: rest3 => (none, rest3, args2)
               | _ => (some .dictTooManyElements, ts2, args2))
    | '*' :: rest =>
      let (r, args') := consumeVariadicArgument gvariantPtr args flags
      (r, rest, args')
    | _ => checkBasicTypeString ts args flags
  | f + 1, .typeLoop, ts, args, flags =>
    match ts with
    | [] => (none, ts, args)
    | ')' :: _ => (none, ts, args)
    | _ =>
      match parseF f .typeStr ts args flags with
      | (some d, ts', args') => (some d, ts', args')
      | (none, ts', args') => parseF f .typeLoop ts' args' flags
  | f + 1, .fmtStr, ts, args, flags =>
    match ts with
    | '@' :: rest => parseF f .typeStr rest args (forceGVariantFlags flags)
    | 'm' :: rest => parseF f .fmtStr rest args (maybeFlags flags)
    | '*' :: rest =>
      let (r, args') := consumeVariadicArgument gvariantPtr args flags
      (r, rest, args')
    | '?' :: rest =>
      let (r, args') := consumeVariadicArgument gvariantPtr args flags
      (r, rest, args')
    | 'r' :: rest =>
      let (r, args') := consumeVariadicArgument gvariantPtr args flags
      (r, rest, args')
    | '(' :: rest =>
      (match parseF f .fmtLoop rest args flags with
       | (some d, ts', args') => (some d, ts', args')
       | (none, ts', args') =>
         match ts' with
         | ')' :: rest2 => (none, rest2, args')
         | _ => (some .unterminatedTuple, ts', args'))
    | '{' :: rest =>
      (match rest with
       | '}' :: _ => (some .dictNotTwoElements, rest, args)
       | _ =>
         match checkBasicFormatString rest args flags with
         | (some d, ts', args') => (some d, ts', args')
         | (none, ts', args') =>
           match ts' with
           | '}' :: _ => (some .dictNotTwoElements, ts', args')
           | _ =>
             match parseF f .fmtStr ts' args' flags with
             | (some d, ts2, args2) => (some d, ts2, args2)
             | (none, ts2, args2) =>
               match ts2 with
               | [] => (some .dictUnterminated, ts2, args2)
               | '}' :: rest3 => (none, rest3, args2)
               | _ => (some .dictTooManyElements, ts2, args2))
    | '&' :: rest => parseF f .typeStr rest args (requireConstFlags flags)
    | '^' :: rest => checkBasicFormatString ('^' :: rest) args flags
    | _ => parseF f .typeStr ts args flags
  | f + 1, .fmtLoop, ts, args, flags =>
    match ts with
    | [] => (none, ts, args)
    | ')' :: _ => (none, ts, args)
    | _ =>
      match parseF f .fmtStr ts args flags with
      | (some d, ts', args') => (some d, ts', args')
      | (none, ts', args') => parseF f .fmtLoop ts' args' flags

/-- `_check_type_string` at its canonical fuel. -/
def checkTypeString (ts : List Char) (args : List Arg) (flags : Flags) : PRes :=
  parseF (2 * ts.length + 1) .typeStr ts args flags

/-- `_check_format_string` at its canonical fuel. -/
def checkFormatString (ts : List Char) (args : List Arg) (flags : Flags) : PRes :=
  parseF (2 * ts.length + 1) .fmtStr ts args flags

/-- `_gvariant_format_string_for_type`: best-effort reverse inference of a
format fragment from a static type, used only to decorate
unconsumed-argument diagnostics. -/
def gvariantFormatStringForType (t : Ty) : Option (List Char) :=
  let bt := dynCastBuiltin t
  if bt == some .boolB || t == gbooleanPtr then some ['b']
  else if bt == some .ucharB then some ['y']
  else if bt == some .longdoubleB then some ['d']
  else if isSignedIntegerTypeB t then
    if typeSizeBits t == 16 then some ['n']
    else if typeSizeBits t == 32 then some ['i']
    else if typeSizeBits t == 64 then some ['x']
    else none
  else if isUnsignedIntegerTypeB t then
    if typeSizeBits t == 16 then some ['q']
    else if typeSizeBits t == 32 then some ['u']
    else if typeSizeBits t == 64 then some ['t']
    else none
  else if isPointerTypeB t then
    match getAsPointerPointee t with
    | none => none
    | some p =>
      if isCharTypeB p && isConstQualified p then some ['&', 's']
      else if isCharTypeB p then some ['s']
      else if p == gvariantPtr then some ['v']
      else if isPointerTypeB p then
        match getAsPointerPointee p with
        | some p2 => if isCharTypeB p2 then some ['^', 'a', 's'] else none
        | none => none
      else none
  else none

/-- A `VariantFuncInfo` table entry. -/
structure VariantFuncInfo where
  formatParamIndex : Nat
  firstVarargParamIndex : Nat
  usesVaList : Bool
  argsIn : Bool
deriving DecidableEq

/-- The base flag set `_check_gvariant_format_param` derives from the
signature: consume varargs unless the function takes a `va_list` (then
force the va_list type instead); outbound arguments are also always
permitted to be null. -/
def baseFlags (info : VariantFuncInfo) : Flags :=
  { forceGVariant := false
    forceVaList := info.usesVaList
    requireConst := false
    directionOut := !info.argsIn
    allowMaybe := !info.argsIn
    consumeArgs := !info.usesVaList }

/-- The diagnostics of one whole call-site check. -/
inductive Diag where
  | parseError (k : DiagKind)
  | nonLiteralFormatString
  | unconsumedFormatString
  | unconsumedArgument (suggestion : Option (List Char))
deriving DecidableEq

/-- `_check_gvariant_format_param`: `fmtLit` is the format argument's
literal content (`none` when it is not a string literal, which only warns),
`callArgs` the full call argument list.  The final unconsumed-argument pass
is exhaustive: one diagnostic per leftover argument, each decorated with the
reverse-inferred format fragment when one exists. -/
def checkGVariantFormatParam (info : VariantFuncInfo) (fmtLit : Option (List Char))
    (callArgs : List Arg) : Bool × List Diag :=
  match fmtLit with
  | none => (false, [.nonLiteralFormatString])
  | some fmt =>
    let args := callArgs.drop info.firstVarargParamIndex
    match checkFormatString fmt args (baseFlags info) with
    | (some d, _, _) => (false, [.parseError d])
    | (none, fmtRest, argsRest) =>
      match fmtRest with
      | _ :: _ => (false, [.unconsumedFormatString])
      | [] =>
        let leftovers := if info.usesVaList then [] else argsRest
        let diags := leftovers.map
          (fun a => Diag.unconsumedArgument (gvariantFormatStringForType a.type))
        (diags.isEmpty, diags)

/-! ### Helper lemmas -/

theorem maybeFlags_consumeArgs (f : Flags) : (maybeFlags f).consumeArgs = f.consumeArgs := rfl

theorem maybeFlags_directionOut (f : Flags) : (maybeFlags f).directionOut = f.directionOut := rfl

theorem noConsumeFlags_consumeArgs (f : Flags) : (noConsumeFlags f).consumeArgs = false := rfl

theorem forceGVariantFlags_consumeArgs (f : Flags) :
    (forceGVariantFlags f).consumeArgs = f.consumeArgs := rfl

theorem requireConstFlags_consumeArgs (f : Flags) :
    (requireConstFlags f).consumeArgs = f.consumeArgs := rfl

/-- With `CHECK_FLAG_CONSUME_ARGS` unset the consumer is a no-op success. -/
theorem consume_noconsume (e : Ty) (args : List Arg) (flags : Flags)
    (h : flags.consumeArgs = false) : consumeVariadicArgument e args flags = (none, args) := by
  unfold consumeVariadicArgument
  simp [h]

/-- A successful consumption with `CHECK_FLAG_CONSUME_ARGS` set pops exactly
the head of the cursor. -/
theorem consume_success_cons {e : Ty} {args args' : List Arg} {flags : Flags}
    (hc : flags.consumeArgs = true) (h : consumeVariadicArgument e args flags = (none, args')) :
    ∃ a, args = a :: args' := by
  unfold consumeVariadicArgument at h
  rcases args with _ | ⟨a, rest⟩
  · simp [hc] at h
  · simp [hc] at h
    refine ⟨a, ?_⟩
    split_ifs at h <;> simp_all

/-- A failed consumption leaves the cursor untouched. -/
theorem consume_fail_unchanged {e : Ty} {args args' : List Arg} {flags : Flags} {d : DiagKind}
    (h : consumeVariadicArgument e args flags = (some d, args')) : args' = args := by
  unfold consumeVariadicArgument at h
  by_cases hc : flags.consumeArgs = true
  · rcases args with _ | ⟨a, rest⟩
    · simp [hc] at h
      simp [h.2]
    · simp [hc] at h
      split_ifs at h <;> simp_all
  · rw [Bool.not_eq_true] at hc
    simp [hc] at h

/-- `_check_basic_type_string` never moves the argument cursor when
`CHECK_FLAG_CONSUME_ARGS` is unset. -/
theorem checkBasicTypeString_noconsume (ts : List Char) (args : List Arg) (flags : Flags)
    (h : flags.consumeArgs = false) : (checkBasicTypeString ts args flags).2.2 = args := by
  unfold checkBasicTypeString
  rcases ts with _ | ⟨c, rest⟩
  · rfl
  · rcases hb : basicTypeForChar c with _ | t
    · simp [hb]
    · simp [hb, consume_noconsume _ _ _ h]

/-- `_check_basic_format_string` never moves the argument cursor when
`CHECK_FLAG_CONSUME_ARGS` is unset. -/
theorem checkBasicFormatString_noconsume (ts : List Char) (args : List Arg) (flags : Flags)
    (h : flags.consumeArgs = false) : (checkBasicFormatString ts args flags).2.2 = args := by
  unfold checkBasicFormatString
  split
  · exact checkBasicTypeString_noconsume _ _ _ h
  · simp [consume_noconsume _ _ _ h]
  · exact checkBasicTypeString_noconsume _ _ _ h
  · simp only []
    split_ifs <;> simp [consume_noconsume _ _ _ h]
  · exact checkBasicTypeString_noconsume _ _ _ h

set_option maxHeartbeats 1600000 in
/-- Neither grammar moves the argument cursor when
`CHECK_FLAG_CONSUME_ARGS` is unset, whatever the fuel. -/
theorem parseF_noconsume :
    ∀ (fuel : Nat) (mode : PMode) (ts : List Char) (args : List Arg) (flags : Flags),
      flags.consumeArgs = false → (parseF fuel mode ts args flags).2.2 = args := by
  intro fuel
  induction fuel with
  | zero => intro mode ts args flags _; rfl
  | succ f ih =>
    intro mode ts args flags h
    cases mode with
    | typeStr =>
      show (parseF (f + 1) .typeStr ts args flags).2.2 = args
      unfold parseF
      split
      · simp [consume_noconsume _ _ _ h]
      · -- array
        rename_i rest
        rcases h1 : parseF f .typeStr rest args (noConsumeFlags (maybeFlags flags)) with ⟨r1, ts1, a1⟩
        have ha1 : a1 = args := by
          have := ih .typeStr rest args (noConsumeFlags (maybeFlags flags)) rfl
          rw [h1] at this
          exact this
        rcases r1 with _ | d
        · simp [h1, ha1,
            consume_noconsume _ _ _ (show (maybeFlags flags).consumeArgs = false by simp [maybeFlags, h])]
        · simp [h1, ha1]
      · -- maybe
        exact ih .typeStr _ args (maybeFlags flags) (by simp [maybeFlags, h])
      · -- tuple
        rename_i rest
        rcases h1 : parseF f .typeLoop rest args flags with ⟨r1, ts1, a1⟩
        have ha1 : a1 = args := by
          have := ih .typeLoop rest args flags h
          rw [h1] at this
          exact this
        rcases r1 with _ | d
        · simp only [h1]
          split <;> simp [ha1]
        · simp [h1, ha1]
      · simp [consume_noconsume _ _ _ h]
      · -- dict
        rename_i rest
        split
        · rfl
        · rcases h1 : checkBasicTypeString rest args flags with ⟨r1, ts1, a1⟩
          have ha1 : a1 = args := by
            have := checkBasicTypeString_noconsume rest args flags h
            rw [h1] at this
            exact this
          rcases r1 with _ | d
          · simp only [h1]
            split
            · simp [ha1]
            · rcases h2 : parseF f .typeStr ts1 a1 flags with ⟨r2, ts2, a2⟩
              have ha2 : a2 = a1 := by
                have := ih .typeStr ts1 a1 flags h
                rw [h2] at this
                exact this
              rcases r2 with _ | d2
              · simp only [h2]
                split <;> simp [ha1, ha2]
              · simp [h2, ha1, ha2]
          · simp [h1, ha1]
      · simp [consume_noconsume _ _ _ h]
      · exact checkBasicTypeString_noconsume _ _ _ h
    | typeLoop =>
      show (parseF (f + 1) .typeLoop ts args flags).2.2 = args
      unfold parseF
      split
      · rfl
      · rfl
      · rcases h1 : parseF f .typeStr ts args flags with ⟨r1, ts1, a1⟩
        have ha1 : a1 = args := by
          have := ih .typeStr ts args flags h
          rw [h1] at this
          exact this
        rcases r1 with _ | d
        · subst ha1
          have := ih .typeLoop ts1 a1 flags h
          simp [h1, this]
        · simp [h1, ha1]
    | fmtStr =>
      show (parseF (f + 1) .fmtStr ts args flags).2.2 = args
      unfold parseF
      split
      · exact ih .typeStr _ args (forceGVariantFlags flags) (by simp [forceGVariantFlags, h])
      · exact ih .fmtStr _ args (maybeFlags flags) (by simp [maybeFlags, h])
      · simp [consume_noconsume _ _ _ h]
      · simp [consume_noconsume _ _ _ h]
      · simp [consume_noconsume _ _ _ h]
      · -- tuple
        rename_i rest
        rcases h1 : parseF f .fmtLoop rest args flags with ⟨r1, ts1, a1⟩
        have ha1 : a1 = args := by
          have := ih .fmtLoop rest args flags h
          rw [h1] at this
          exact this
        rcases r1 with _ | d
        · simp only [h1]
          split <;> simp [ha1]
        · simp [h1, ha1]
      · -- dict
        rename_i rest
        split
        · rfl
        · rcases h1 : checkBasicFormatString rest args flags with ⟨r1, ts1, a1⟩
          have ha1 : a1 = args := by
            have := checkBasicFormatString_noconsume rest args flags h
            rw [h1] at this
            exact this
          rcases r1 with _ | d
          · simp only [h1]
            split
            · simp [ha1]
            · rcases h2 : parseF f .fmtStr ts1 a1 flags with ⟨r2, ts2, a2⟩
              have ha2 : a2 = a1 := by
                have := ih .fmtStr ts1 a1 flags h
                rw [h2] at this
                exact this
              rcases r2 with _ | d2
              · simp only [h2]
                split <;> simp [ha1, ha2]
              · simp [h2, ha1, ha2]
          · simp [h1, ha1]
      · exact ih .typeStr _ args (requireConstFlags flags) (by simp [requireConstFlags, h])
      · exact checkBasicFormatString_noconsume _ _ _ h
      · exact ih .typeStr ts args flags h
    | fmtLoop =>
      show (parseF (f + 1) .fmtLoop ts args flags).2.2 = args
      unfold parseF
      split
      · rfl
      · rfl
      · rcases h1 : parseF f .fmtStr ts args flags with ⟨r1, ts1, a1⟩
        have ha1 : a1 = args := by
          have := ih .fmtStr ts args flags h
          rw [h1] at this
          exact this
        rcases r1 with _ | d
        · subst ha1
          have := ih .fmtLoop ts1 a1 flags h
          simp [h1, this]
        · simp [h1, ha1]

/-! ### Claim theorems -/

/-- Claim C1 (corrected).  With `consumeArguments` set and a null-pointer
constant as the next argument, the consumer fails with `NullNotAllowed` iff
`allowMaybeNull` is unset AND the flag-adjusted expected type IS a pointer
type; in every other case — in particular when the expected type is a
non-pointer such as `int` — it silently succeeds and consumes the argument,
skipping the type checks entirely.  (The claim instead demanded failure
whenever `allowMaybeNull` is unset or the expected type is a non-pointer.) -/
theorem c1_null_argument_behaviour (e : Ty) (arg : Arg) (rest : List Arg) (flags : Flags)
    (hc : flags.consumeArgs = true) (hn : arg.isNullConstant = true) :
    consumeVariadicArgument e (arg :: rest) flags =
      (if !flags.allowMaybe && isPointerTypeB (adjustExpectedType e flags)
       then (some .nullNotAllowed, arg :: rest)
       else (none, rest)) := by
  unfold consumeVariadicArgument
  simp [hc, hn]

/-- Claim C1, counterexample.  A null-pointer constant passed where the
non-pointer `int` is expected, with `allowMaybeNull` unset: the claim says
this fails with `NullNotAllowed`, but the code succeeds (and consumes the
argument). -/
theorem c1_counterexample :
    consumeVariadicArgument (Ty.builtin .intB) [nullArg] consumeOnly = (none, []) := by
  decide

/-- Claim C1, witness: a null argument where a pointer (`char*`) is expected
and `allowMaybeNull` is unset does fail with `NullNotAllowed`. -/
theorem c1_null_argument_behaviour_witness :
    consumeOnly.consumeArgs = true ∧ nullArg.isNullConstant = true ∧
    consumeVariadicArgument (Ty.ptr (Ty.builtin .charB)) [nullArg] consumeOnly =
      (some .nullNotAllowed, [nullArg]) := by
  refine ⟨rfl, rfl, ?_⟩
  rw [c1_null_argument_behaviour (Ty.ptr (Ty.builtin .charB)) nullArg [] consumeOnly rfl rfl]
  decide

/-- Claim C2 (corrected).  Pointee-qualifier insensitivity is one-sided: the
inbound comparison strips qualifiers only from the ACTUAL pointee, so
`typesEqual(const char*, char*)` holds but `typesEqual(char*, const char*)`
does not; and outbound comparisons require exact qualifier agreement at
every depth, so `char**` and `const char * const *` are NOT `typesEqual`
outbound (in either order) — that equivalence holds only inbound, with the
qualified type in actual position. -/
theorem c2_qualifier_stripping :
    compareTypes false (Ty.ptr (Ty.konst (Ty.builtin .charB))) (Ty.ptr (Ty.builtin .charB)) = true ∧
    compareTypes false (Ty.ptr (Ty.builtin .charB)) (Ty.ptr (Ty.konst (Ty.builtin .charB))) = false ∧
    compareTypes false (Ty.builtin .intB) (Ty.builtin .intB) = true ∧
    compareTypes false (Ty.ptr (Ty.konst (Ty.record "GVariant"))) gvariantPtr = true ∧
    compareTypes true (Ty.ptr (Ty.ptr (Ty.builtin .charB)))
      (Ty.ptr (Ty.konst (Ty.ptr (Ty.konst (Ty.builtin .charB))))) = false ∧
    compareTypes true (Ty.ptr (Ty.konst (Ty.ptr (Ty.konst (Ty.builtin .charB)))))
      (Ty.ptr (Ty.ptr (Ty.builtin .charB))) = false ∧
    compareTypes false (Ty.ptr (Ty.konst (Ty.ptr (Ty.konst (Ty.builtin .charB)))))
      (Ty.ptr (Ty.ptr (Ty.builtin .charB))) = true := by
  decide

/-- Claim C2, counterexample.  `typesEqual(char*, const char*)` with
`directionOut` unset returns `false` (the claim says both orders return
`true`). -/
theorem c2_counterexample :
    compareTypes false (Ty.ptr (Ty.builtin .charB)) (Ty.ptr (Ty.konst (Ty.builtin .charB))) =
      false := by
  decide

/-- Claim C3 (confirmed).  For a consumed argument that is not a null
constant: an architecture-dependent (adjusted) actual type fails with
`ArchDependentMismatch` regardless of `typesEqual`; otherwise a `typesEqual`
failure gives `TypeMismatch`; and success is exactly the conjunction of the
two checks passing. -/
theorem c3_arch_check_precedes_type_check (e : Ty) (arg : Arg) (rest : List Arg) (flags : Flags)
    (hc : flags.consumeArgs = true) (hn : arg.isNullConstant = false) :
    (typeIsArchDependent (adjustActualType arg (adjustExpectedType e flags)) = true →
      consumeVariadicArgument e (arg :: rest) flags = (some .archDependentMismatch, arg :: rest)) ∧
    (typeIsArchDependent (adjustActualType arg (adjustExpectedType e flags)) = false →
      compareTypes flags.directionOut (adjustActualType arg (adjustExpectedType e flags))
          (adjustExpectedType e flags) = false →
      consumeVariadicArgument e (arg :: rest) flags = (some .typeMismatch, arg :: rest)) ∧
    ((consumeVariadicArgument e (arg :: rest) flags).1 = none ↔
      typeIsArchDependent (adjustActualType arg (adjustExpectedType e flags)) = false ∧
      compareTypes flags.directionOut (adjustActualType arg (adjustExpectedType e flags))
          (adjustExpectedType e flags) = true) := by
  unfold consumeVariadicArgument
  simp only [hc, hn]
  refine ⟨?_, ?_, ?_⟩
  · intro ha
    simp [ha]
  · intro ha ht
    simp [ha, ht]
  · constructor
    · intro hres
      by_cases ha : typeIsArchDependent (adjustActualType arg (adjustExpectedType e flags)) = true
      · simp [ha] at hres
      · rw [Bool.not_eq_true] at ha
        refine ⟨ha, ?_⟩
        by_cases ht : compareTypes flags.directionOut
            (adjustActualType arg (adjustExpectedType e flags)) (adjustExpectedType e flags) = true
        · exact ht
        · rw [Bool.not_eq_true] at ht
          simp [ha, ht] at hres
    · rintro ⟨ha, ht⟩
      simp [ha, ht]

/-- Claim C3, witness: `long` passed where `gint64` (an alias of `long` on
LP64) is expected — the types compare equal, yet the consumer reports
`ArchDependentMismatch`. -/
theorem c3_arch_check_precedes_type_check_witness :
    consumeOnly.consumeArgs = true ∧
    (plainArg (Ty.builtin .longB)).isNullConstant = false ∧
    compareTypes consumeOnly.directionOut
      (adjustActualType (plainArg (Ty.builtin .longB)) (adjustExpectedType gint64 consumeOnly))
      (adjustExpectedType gint64 consumeOnly) = true ∧
    consumeVariadicArgument gint64 [plainArg (Ty.builtin .longB)] consumeOnly =
      (some .archDependentMismatch, [plainArg (Ty.builtin .longB)]) := by
  refine ⟨rfl, rfl, by decide, ?_⟩
  exact (c3_arch_check_precedes_type_check gint64 (plainArg (Ty.builtin .longB)) [] consumeOnly
    rfl rfl).1 (by decide)

/-- Claim C6 (confirmed).  The 8/16-bit characters `y`, `n`, `q` hand the
promoted 32-bit signed `int` to the argument consumer when `directionOut` is
unset; with `directionOut` set they keep their narrow resolved types; and
every other basic character always passes its resolved type unpromoted. -/
theorem c6_integer_promotion :
    (∀ (rest : List Char) (args : List Arg) (flags : Flags), flags.directionOut = false →
      checkBasicTypeString ('y' :: rest) args flags =
        ((consumeVariadicArgument (Ty.builtin .intB) args flags).1, rest,
          (consumeVariadicArgument (Ty.builtin .intB) args flags).2) ∧
      checkBasicTypeString ('n' :: rest) args flags =
        ((consumeVariadicArgument (Ty.builtin .intB) args flags).1, rest,
          (consumeVariadicArgument (Ty.builtin .intB) args flags).2) ∧
      checkBasicTypeString ('q' :: rest) args flags =
        ((consumeVariadicArgument (Ty.builtin .intB) args flags).1, rest,
          (consumeVariadicArgument (Ty.builtin .intB) args flags).2)) ∧
    (∀ (rest : List Char) (args : List Arg) (flags : Flags), flags.directionOut = true →
      checkBasicTypeString ('y' :: rest) args flags =
        ((consumeVariadicArgument (Ty.builtin .ucharB) args flags).1, rest,
          (consumeVariadicArgument (Ty.builtin .ucharB) args flags).2) ∧
      checkBasicTypeString ('n' :: rest) args flags =
        ((consumeVariadicArgument gint16 args flags).1, rest,
          (consumeVariadicArgument gint16 args flags).2) ∧
      checkBasicTypeString ('q' :: rest) args flags =
        ((consumeVariadicArgument guint16 args flags).1, rest,
          (consumeVariadicArgument guint16 args flags).2)) ∧
    (∀ (c : Char) (rest : List Char) (args : List Arg) (flags : Flags) (t : Ty),
      c ≠ 'y' → c ≠ 'n' → c ≠ 'q' → basicTypeForChar c = some t →
      checkBasicTypeString (c :: rest) args flags =
        ((consumeVariadicArgument t args flags).1, rest,
          (consumeVariadicArgument t args flags).2)) := by
  refine ⟨?_, ?_, ?_⟩
  · intro rest args flags hd
    refine ⟨?_, ?_, ?_⟩ <;>
      simp [checkBasicTypeString, basicTypeForChar, hd,
        show getPromotedIntegerType (Ty.builtin .ucharB) = Ty.builtin .intB from rfl,
        show getPromotedIntegerType gint16 = Ty.builtin .intB from rfl,
        show getPromotedIntegerType guint16 = Ty.builtin .intB from rfl]
  · intro rest args flags hd
    refine ⟨?_, ?_, ?_⟩ <;> simp [checkBasicTypeString, basicTypeForChar, hd]
  · intro c rest args flags t hy hn hq hb
    have hy2 : (c == 'y') = false := by simpa using hy
    have hn2 : (c == 'n') = false := by simpa using hn
    have hq2 : (c == 'q') = false := by simpa using hq
    simp [checkBasicTypeString, hb, hy2, hn2, hq2]

/-- Claim C6, witness: at `c = 'y'` inbound the consumer receives `int` (and
accepts an `int`-typed argument), while `c = 'b'` resolves to `int` without
promotion. -/
theorem c6_integer_promotion_witness :
    consumeOnly.directionOut = false ∧ ('b' ≠ 'y' ∧ 'b' ≠ 'n' ∧ 'b' ≠ 'q') ∧
    basicTypeForChar 'b' = some (Ty.builtin .intB) ∧
    checkBasicTypeString ['y'] [plainArg (Ty.builtin .intB)] consumeOnly =
      ((consumeVariadicArgument (Ty.builtin .intB) [plainArg (Ty.builtin .intB)] consumeOnly).1,
        [], (consumeVariadicArgument (Ty.builtin .intB) [plainArg (Ty.builtin .intB)] consumeOnly).2) ∧
    checkBasicTypeString ['b'] [plainArg (Ty.builtin .intB)] consumeOnly =
      ((consumeVariadicArgument (Ty.builtin .intB) [plainArg (Ty.builtin .intB)] consumeOnly).1,
        [], (consumeVariadicArgument (Ty.builtin .intB) [plainArg (Ty.builtin .intB)] consumeOnly).2) := by
  refine ⟨rfl, ⟨by decide, by decide, by decide⟩, by decide, ?_, ?_⟩
  · exact ((c6_integer_promotion.1 [] [plainArg (Ty.builtin .intB)] consumeOnly rfl).1)
  · exact (c6_integer_promotion.2.2 'b' [] [plainArg (Ty.builtin .intB)] consumeOnly
      (Ty.builtin .intB) (by decide) (by decide) (by decide) (by decide))

/-- Claim C9 (confirmed).  Every flag transformation the parsers apply at a
recursive call site yields a superset of the caller's flags on every facet
except `consumeArgs`; all of them except the array-element transformation
are full supersets, and the array-element transformation changes
`consumeArgs` only by clearing it (all transformations are pure functions
of the caller's flag value, so no callee change is visible to a caller). -/
theorem c9_flag_monotonicity :
    (∀ t ∈ recursionFlagMaps, ∀ f : Flags, flagSubsetExceptConsume f (t f) = true) ∧
    (∀ t ∈ [id, maybeFlags, forceGVariantFlags, requireConstFlags], ∀ f : Flags,
      flagSubset f (t f) = true) ∧
    (∀ f : Flags, (arrayElementFlags f).consumeArgs = false ∧
      flagSubset (noConsumeFlags f) (arrayElementFlags f) = true) := by
  refine ⟨?_, ?_, ?_⟩
  · intro t ht f
    simp only [recursionFlagMaps, List.mem_cons, List.mem_singleton] at ht
    rcases f with ⟨a, b, c, d, e, g⟩
    rcases ht with rfl | rfl | rfl | rfl | rfl | h
    · revert a b c d e g; decide
    · revert a b c d e g; decide
    · revert a b c d e g; decide
    · revert a b c d e g; decide
    · revert a b c d e g; decide
    · simp at h
  · intro t ht f
    simp only [List.mem_cons, List.mem_singleton] at ht
    rcases f with ⟨a, b, c, d, e, g⟩
    rcases ht with rfl | rfl | rfl | rfl | h
    · revert a b c d e g; decide
    · revert a b c d e g; decide
    · revert a b c d e g; decide
    · revert a b c d e g; decide
    · simp at h
  · intro f
    rcases f with ⟨a, b, c, d, e, g⟩
    revert a b c d e g; decide

/-- Claim C9, witness: the `m`-production transformation is one of the
recursion maps and is a superset map at the empty flag set. -/
theorem c9_flag_monotonicity_witness :
    maybeFlags ∈ recursionFlagMaps ∧
    flagSubsetExceptConsume flagsNone (maybeFlags flagsNone) = true := by
  refine ⟨by simp [recursionFlagMaps], ?_⟩
  exact c9_flag_monotonicity.1 maybeFlags (by simp [recursionFlagMaps]) flagsNone

/-- Claim C10 (confirmed).  One consumer call is atomic on the argument
cursor: with `consumeArguments` unset it succeeds leaving the cursor alone;
on any failure the cursor is returned unchanged; and a success with
`consumeArguments` set pops exactly one argument (never more, never
backwards). -/
theorem c10_cursor_atomicity (e : Ty) (args : List Arg) (flags : Flags) :
    (flags.consumeArgs = false → consumeVariadicArgument e args flags = (none, args)) ∧
    (∀ d, (consumeVariadicArgument e args flags).1 = some d →
      (consumeVariadicArgument e args flags).2 = args) ∧
    ((consumeVariadicArgument e args flags).1 = none → flags.consumeArgs = true →
      ∃ a, args = a :: (consumeVariadicArgument e args flags).2) := by
  refine ⟨fun h => consume_noconsume e args flags h, ?_, ?_⟩
  · intro d hd
    rcases h : consumeVariadicArgument e args flags with ⟨r, args2⟩
    rw [h] at hd
    simp at hd
    subst hd
    simp [consume_fail_unchanged h]
  · intro hn hc
    rcases h : consumeVariadicArgument e args flags with ⟨r, args2⟩
    rw [h] at hn
    simp at hn
    subst hn
    simpa [h] using consume_success_cons hc h

/-- Claim C10, witness: a successful consumption of a `GVariant*` argument
pops exactly that argument. -/
theorem c10_cursor_atomicity_witness :
    (consumeVariadicArgument gvariantPtr [plainArg gvariantPtr] consumeOnly).1 = none ∧
    ∃ a, [plainArg gvariantPtr] =
      a :: (consumeVariadicArgument gvariantPtr [plainArg gvariantPtr] consumeOnly).2 := by
  exact ⟨by decide, (c10_cursor_atomicity gvariantPtr [plainArg gvariantPtr] consumeOnly).2.2
    (by decide) rfl⟩

set_option maxHeartbeats 3200000 in
/-- Claim C4 (corrected).  The round trip holds for every promotion-exempt
basic character wherever reverse inference is defined; but for the narrow
characters `y`, `n`, `q` the checker expects the PROMOTED 32-bit `int` (the
static type a C variadic argument of the narrow type actually has after
default argument promotion), so it accepts an argument of static type `int`
and rejects one whose static type is the narrow resolved type itself. -/
theorem c4_roundtrip_amended (c : Char) (t : Ty) (f : List Char)
    (hb : basicTypeForChar c = some t) (hf : gvariantFormatStringForType t = some f) :
    (¬(c = 'y' ∨ c = 'n' ∨ c = 'q') →
      checkFormatString f [plainArg t] consumeOnly = (none, [], [])) ∧
    ((c = 'y' ∨ c = 'n' ∨ c = 'q') →
      checkFormatString f [plainArg (Ty.builtin .intB)] consumeOnly = (none, [], [])) := by
  unfold basicTypeForChar at hb
  split_ifs at hb with h1 h2 h3 h4 h5 h6 h7 h8 h9 h10 h11
  · obtain rfl : c = 'b' := by simpa using h1
    obtain rfl := Option.some.inj hb
    obtain rfl := Option.some.inj hf
    exact ⟨fun _ => by decide, fun hcon => absurd hcon (by decide)⟩
  · obtain rfl : c = 'y' := by simpa using h2
    obtain rfl := Option.some.inj hb
    obtain rfl := Option.some.inj hf
    exact ⟨fun hcon => absurd (Or.inl rfl) hcon, fun _ => by decide⟩
  · obtain rfl : c = 'n' := by simpa using h3
    obtain rfl := Option.some.inj hb
    obtain rfl := Option.some.inj hf
    exact ⟨fun hcon => absurd (Or.inr (Or.inl rfl)) hcon, fun _ => by decide⟩
  · obtain rfl : c = 'q' := by simpa using h4
    obtain rfl := Option.some.inj hb
    obtain rfl := Option.some.inj hf
    exact ⟨fun hcon => absurd (Or.inr (Or.inr rfl)) hcon, fun _ => by decide⟩
  · have : c = 'i' ∨ c = 'h' := by simpa using h5
    obtain rfl := Option.some.inj hb
    obtain rfl := Option.some.inj hf
    rcases this with rfl | rfl
    · exact ⟨fun _ => by decide, fun hcon => absurd hcon (by decide)⟩
    · exact ⟨fun _ => by decide, fun hcon => absurd hcon (by decide)⟩
  · obtain rfl : c = 'u' := by simpa using h6
    obtain rfl := Option.some.inj hb
    obtain rfl := Option.some.inj hf
    exact ⟨fun _ => by decide, fun hcon => absurd hcon (by decide)⟩
  · obtain rfl : c = 'x' := by simpa using h7
    obtain rfl := Option.some.inj hb
    obtain rfl := Option.some.inj hf
    exact ⟨fun _ => by decide, fun hcon => absurd hcon (by decide)⟩
  · obtain rfl : c = 't' := by simpa using h8
    obtain rfl := Option.some.inj hb
    obtain rfl := Option.some.inj hf
    exact ⟨fun _ => by decide, fun hcon => absurd hcon (by decide)⟩
  · -- 'd': reverse inference is undefined for double
    obtain rfl := Option.some.inj hb
    exact Option.noConfusion hf
  · have : c = 's' ∨ c = 'o' ∨ c = 'g' := by simpa [or_assoc] using h10
    obtain rfl := Option.some.inj hb
    obtain rfl := Option.some.inj hf
    rcases this with rfl | rfl | rfl
    · exact ⟨fun _ => by decide, fun hcon => absurd hcon (by decide)⟩
    · exact ⟨fun _ => by decide, fun hcon => absurd hcon (by decide)⟩
    · exact ⟨fun _ => by decide, fun hcon => absurd hcon (by decide)⟩
  · -- rejected: reverse inference is undefined for GVariant*
    obtain rfl := Option.some.inj hb
    exact Option.noConfusion hf

/-- Claim C4, counterexample.  `'y'` resolves to `unsigned char` and
reverse inference maps that back to `"y"`, but checking `"y"` against a
single argument of static type `unsigned char` fails with `TypeMismatch`
(the expected type was promoted to `int`). -/
theorem c4_counterexample :
    basicTypeForChar 'y' = some (Ty.builtin .ucharB) ∧
    gvariantFormatStringForType (Ty.builtin .ucharB) = some ['y'] ∧
    (checkFormatString ['y'] [plainArg (Ty.builtin .ucharB)] consumeOnly).1 =
      some .typeMismatch := by
  decide

/-- Claim C4, witness: the round trip at `'b'` (resolved type `int`,
inferred fragment `"i"`), and at `'y'` with the promoted static type. -/
theorem c4_roundtrip_amended_witness :
    basicTypeForChar 'b' = some (Ty.builtin .intB) ∧
    gvariantFormatStringForType (Ty.builtin .intB) = some ['i'] ∧
    checkFormatString ['i'] [plainArg (Ty.builtin .intB)] consumeOnly = (none, [], []) ∧
    checkFormatString ['y'] [plainArg (Ty.builtin .intB)] consumeOnly = (none, [], []) := by
  refine ⟨by decide, by decide, ?_, ?_⟩
  · exact (c4_roundtrip_amended 'b' (Ty.builtin .intB) ['i'] (by decide) (by decide)).1
      (by decide)
  · exact (c4_roundtrip_amended 'y' (Ty.builtin .ucharB) ['y'] (by decide) (by decide)).2
      (Or.inl rfl)

/-- Claim C8 (confirmed).  When the grammar parse succeeds with the format
string fully consumed and the signature does not use a `va_list`, the entry
point emits exactly one unconsumed-argument diagnostic per leftover argument
(an exhaustive pass, each diagnostic carrying the reverse-inferred format
fragment when one exists) and returns `true` iff no argument was left
over. -/
theorem c8_unconsumed_arguments_pass (info : VariantFuncInfo) (fmt : List Char)
    (callArgs argsRest : List Arg) (hva : info.usesVaList = false)
    (hparse : checkFormatString fmt (callArgs.drop info.firstVarargParamIndex)
      (baseFlags info) = (none, [], argsRest)) :
    checkGVariantFormatParam info (some fmt) callArgs =
      (argsRest.isEmpty,
        argsRest.map (fun a => Diag.unconsumedArgument (gvariantFormatStringForType a.type))) := by
  simp only [checkGVariantFormatParam]
  rw [hparse]
  simp [hva]
  cases argsRest <;> rfl

/-- Claim C8, witness: `g_variant_new`-style signature, format `"i"`, one
matching argument and one trailing `int` argument: the check returns `false`
with exactly one unconsumed-argument diagnostic suggesting `"i"`. -/
theorem c8_unconsumed_arguments_pass_witness :
    (⟨0, 1, false, true⟩ : VariantFuncInfo).usesVaList = false ∧
    checkFormatString ['i']
      (([plainArg (Ty.ptr (Ty.builtin .charB)), plainArg gint32,
         plainArg (Ty.builtin .intB)] : List Arg).drop 1)
      (baseFlags ⟨0, 1, false, true⟩) = (none, [], [plainArg (Ty.builtin .intB)]) ∧
    checkGVariantFormatParam ⟨0, 1, false, true⟩ (some ['i'])
      [plainArg (Ty.ptr (Ty.builtin .charB)), plainArg gint32, plainArg (Ty.builtin .intB)] =
      (false, [Diag.unconsumedArgument (some ['i'])]) := by
  refine ⟨rfl, by decide, ?_⟩
  have h := c8_unconsumed_arguments_pass ⟨0, 1, false, true⟩ ['i']
    [plainArg (Ty.ptr (Ty.builtin .charB)), plainArg gint32, plainArg (Ty.builtin .intB)]
    [plainArg (Ty.builtin .intB)] rfl (by decide)
  rw [h]
  decide

/-- The `s` production of the basic type string reduces to one consumer
call with expected type `char*`. -/
theorem checkBasicTypeString_s (rest : List Char) (args : List Arg) (flags : Flags) :
    checkBasicTypeString ('s' :: rest) args flags =
      ((consumeVariadicArgument (Ty.ptr (Ty.builtin .charB)) args flags).1, rest,
        (consumeVariadicArgument (Ty.ptr (Ty.builtin .charB)) args flags).2) := by
  simp [checkBasicTypeString, basicTypeForChar]

set_option maxHeartbeats 1600000 in
/-- Claim C5 (corrected).  A dict entry with zero, one or three members can
never parse successfully, in either grammar; the diagnostic is of the
malformed-dict-entry class (wrong element count) whenever the member
sub-parses themselves succeed — always for `{}`, and for `{s}`/`{svs}`
whenever `consumeArguments` is cleared — but when a member sub-parse fails
first (e.g. no argument left to consume), that member's own diagnostic is
reported instead of the dict-entry one. -/
theorem c5_malformed_dict_amended (rest : List Char) (args : List Arg) (flags : Flags) :
    (checkTypeString ('{' :: '}' :: rest) args flags =
        (some .dictNotTwoElements, '}' :: rest, args) ∧
      checkFormatString ('{' :: '}' :: rest) args flags =
        (some .dictNotTwoElements, '}' :: rest, args)) ∧
    (flags.consumeArgs = false →
      checkTypeString ('{' :: 's' :: '}' :: rest) args flags =
        (some .dictNotTwoElements, '}' :: rest, args) ∧
      checkFormatString ('{' :: 's' :: '}' :: rest) args flags =
        (some .dictNotTwoElements, '}' :: rest, args) ∧
      checkTypeString ('{' :: 's' :: 'v' :: 's' :: '}' :: rest) args flags =
        (some .dictTooManyElements, 's' :: '}' :: rest, args) ∧
      checkFormatString ('{' :: 's' :: 'v' :: 's' :: '}' :: rest) args flags =
        (some .dictTooManyElements, 's' :: '}' :: rest, args)) ∧
    ((checkTypeString ('{' :: 's' :: '}' :: rest) args flags).1.isSome = true ∧
      (checkFormatString ('{' :: 's' :: '}' :: rest) args flags).1.isSome = true ∧
      (checkTypeString ('{' :: 's' :: 'v' :: 's' :: '}' :: rest) args flags).1.isSome = true ∧
      (checkFormatString ('{' :: 's' :: 'v' :: 's' :: '}' :: rest) args flags).1.isSome = true) := by
  refine ⟨⟨rfl, rfl⟩, ?_, ?_, ?_, ?_, ?_⟩
  · rcases flags with ⟨fg, fv, rc, dq, am, ca⟩
    intro h
    rcases h
    exact ⟨rfl, rfl, rfl, rfl⟩
  · -- {s}, type grammar, arbitrary flags
    rcases hr : consumeVariadicArgument (Ty.ptr (Ty.builtin .charB)) args flags with ⟨r1, a1⟩
    have hkey := checkBasicTypeString_s ('}' :: rest) args flags
    rw [hr] at hkey
    unfold checkTypeString
    rw [show 2 * (('{' :: 's' :: '}' :: rest : List Char)).length + 1 = (2 * rest.length + 6) + 1
      from by simp [List.length_cons]; ring]
    generalize (2 * rest.length + 6 : Nat) = f0
    simp only [parseF]
    rw [hkey]
    rcases r1 with _ | d <;> simp
  · -- {s}, format grammar, arbitrary flags
    rcases hr : consumeVariadicArgument (Ty.ptr (Ty.builtin .charB)) args flags with ⟨r1, a1⟩
    have hkey : checkBasicFormatString ('s' :: '}' :: rest) args flags = (r1, '}' :: rest, a1) := by
      have h0 : checkBasicFormatString ('s' :: '}' :: rest) args flags =
          checkBasicTypeString ('s' :: '}' :: rest) args flags := rfl
      rw [h0, checkBasicTypeString_s, hr]
    unfold checkFormatString
    rw [show 2 * (('{' :: 's' :: '}' :: rest : List Char)).length + 1 = (2 * rest.length + 6) + 1
      from by simp [List.length_cons]; ring]
    generalize (2 * rest.length + 6 : Nat) = f0
    simp only [parseF]
    rw [hkey]
    rcases r1 with _ | d <;> simp
  · -- {svs}, type grammar, arbitrary flags
    rcases hr : consumeVariadicArgument (Ty.ptr (Ty.builtin .charB)) args flags with ⟨r1, a1⟩
    have hkey := checkBasicTypeString_s ('v' :: 's' :: '}' :: rest) args flags
    rw [hr] at hkey
    unfold checkTypeString
    rw [show 2 * (('{' :: 's' :: 'v' :: 's' :: '}' :: rest : List Char)).length + 1 =
        ((2 * rest.length + 9) + 1) + 1 from by simp [List.length_cons]; ring]
    generalize (2 * rest.length + 9 : Nat) = f0
    simp only [parseF]
    rw [hkey]
    rcases r1 with _ | d
    · simp only [parseF]
      rcases hv : consumeVariadicArgument gvariantPtr a1 flags with ⟨r2, a2⟩
      rcases r2 with _ | d2 <;> simp
    · simp
  · -- {svs}, format grammar, arbitrary flags
    rcases hr : consumeVariadicArgument (Ty.ptr (Ty.builtin .charB)) args flags with ⟨r1, a1⟩
    have hkey : checkBasicFormatString ('s' :: 'v' :: 's' :: '}' :: rest) args flags =
        (r1, 'v' :: 's' :: '}' :: rest, a1) := by
      have h0 : checkBasicFormatString ('s' :: 'v' :: 's' :: '}' :: rest) args flags =
          checkBasicTypeString ('s' :: 'v' :: 's' :: '}' :: rest) args flags := rfl
      rw [h0, checkBasicTypeString_s, hr]
    unfold checkFormatString
    rw [show 2 * (('{' :: 's' :: 'v' :: 's' :: '}' :: rest : List Char)).length + 1 =
        (((2 * rest.length + 8) + 1) + 1) + 1 from by simp [List.length_cons]; ring]
    generalize (2 * rest.length + 8 : Nat) = f0
    simp only [parseF]
    rw [hkey]
    rcases r1 with _ | d
    · simp only [parseF]
      rcases hv : consumeVariadicArgument gvariantPtr a1 flags with ⟨r2, a2⟩
      rcases r2 with _ | d2 <;> simp
    · simp

/-- Claim C5, counterexample.  The one-member dict entry `{s}` checked
against an EMPTY argument list with `consumeArguments` set fails with
`MissingArgument` — not with a `MalformedDictEntry`-class diagnostic as the
claim requires for every argument list. -/
theorem c5_counterexample :
    (checkFormatString ['{', 's', '}'] [] consumeOnly).1 = some .missingArgument := by
  decide

/-- Claim C5, witness: the zero-member dict `{}` and (with
`consumeArguments` cleared) the one- and three-member dicts produce the
malformed-dict-entry diagnostics in the format grammar. -/
theorem c5_malformed_dict_amended_witness :
    flagsNone.consumeArgs = false ∧
    checkFormatString ['{', '}'] [] flagsNone = (some .dictNotTwoElements, ['}'], []) ∧
    checkFormatString ['{', 's', '}'] [] flagsNone = (some .dictNotTwoElements, ['}'], []) ∧
    checkFormatString ['{', 's', 'v', 's', '}'] [] flagsNone =
      (some .dictTooManyElements, ['s', '}'], []) := by
  refine ⟨rfl, (c5_malformed_dict_amended [] [] flagsNone).1.2, ?_, ?_⟩
  · exact ((c5_malformed_dict_amended [] [] flagsNone).2.1 rfl).2.1
  · exact ((c5_malformed_dict_amended [] [] flagsNone).2.1 rfl).2.2.2

set_option maxHeartbeats 1600000 in
/-- Claim C7 (confirmed).  For the array production `a X` of the type-string
grammar: the element type `X` is parsed with `allowMaybeNull` added and
`consumeArguments` cleared, and such a parse never advances the argument
cursor (first conjunct, for every fuel); and when the whole production
succeeds with `consumeArguments` set, exactly one argument was consumed for
the whole array (third conjunct), accepted by the consumer against
`GVariantIter*` when `directionOut` is set and `GVariantBuilder*` otherwise,
under the caller's flags plus `allowMaybeNull` (second conjunct). -/
theorem c7_array_production (s : List Char) (args : List Arg) (flags : Flags)
    (ts2 : List Char) (args2 : List Arg) (hc : flags.consumeArgs = true)
    (hs : checkTypeString ('a' :: s) args flags = (none, ts2, args2)) :
    (∀ f, (parseF f .typeStr s args (arrayElementFlags flags)).2.2 = args) ∧
    consumeVariadicArgument
      (if flags.directionOut then gvariantIterPtr else gvariantBuilderPtr)
      args (maybeFlags flags) = (none, args2) ∧
    (∃ a, args = a :: args2) := by
  have hinv : ∀ f, (parseF f .typeStr s args (noConsumeFlags (maybeFlags flags))).2.2 = args :=
    fun f => parseF_noconsume f .typeStr s args (noConsumeFlags (maybeFlags flags)) rfl
  unfold checkTypeString at hs
  rw [show 2 * (('a' :: s : List Char)).length + 1 = (2 * s.length + 2) + 1
    from by simp [List.length_cons]; ring] at hs
  obtain ⟨f0, hf0⟩ : ∃ f0, (2 * s.length + 2 : Nat) = f0 := ⟨_, rfl⟩
  rw [hf0] at hs
  simp only [parseF] at hs
  rcases h1 : parseF f0 .typeStr s args (noConsumeFlags (maybeFlags flags)) with ⟨r1, ts1, a1⟩
  rw [h1] at hs
  have ha1 : a1 = args := by
    have := hinv f0
    rw [h1] at this
    exact this
  rcases r1 with _ | d
  · subst ha1
    simp only [Prod.mk.injEq] at hs
    obtain ⟨h2, hts, ha2⟩ := hs
    have hcon : consumeVariadicArgument
        (if (maybeFlags flags).directionOut = true then gvariantIterPtr else gvariantBuilderPtr)
        a1 (maybeFlags flags) = (none, args2) := Prod.ext h2 ha2
    rw [maybeFlags_directionOut] at hcon
    refine ⟨hinv, hcon, ?_⟩
    exact consume_success_cons (by simpa [maybeFlags_consumeArgs] using hc) hcon
  · simp at hs

/-- Claim C7, witness: `"ai"` against a single `GVariantBuilder*` argument
(inbound, consuming): the element parse moves no argument, the builder
pointer is accepted, and exactly that one argument is consumed. -/
theorem c7_array_production_witness :
    consumeOnly.consumeArgs = true ∧
    checkTypeString ['a', 'i'] [plainArg gvariantBuilderPtr] consumeOnly = (none, [], []) ∧
    consumeVariadicArgument
      (if consumeOnly.directionOut then gvariantIterPtr else gvariantBuilderPtr)
      [plainArg gvariantBuilderPtr] (maybeFlags consumeOnly) = (none, []) ∧
    (∃ a, [plainArg gvariantBuilderPtr] = a :: ([] : List Arg)) := by
  refine ⟨rfl, by decide, ?_, ?_⟩
  · exact (c7_array_production ['i'] [plainArg gvariantBuilderPtr] consumeOnly [] []
      rfl (by decide)).2.1
  · exact (c7_array_production ['i'] [plainArg gvariantBuilderPtr] consumeOnly [] []
      rfl (by decide)).2.2

end GVariantChecker
